import Mathlib

/-!
Verification of the reference-counting smart-pointer library
(`src/smart_pointers.h`): `SharedPtr`, `WeakPtr`, `EnableSharedFromThis`
over a shared `BaseControlBlock` holding `shared_cnt` and `weak_cnt`
(both `size_t`).

Two embeddings are developed:

* a heap-level model: a heap of control blocks (a slot becomes `none`
  once `Deallocate()` released its storage), pointer values as pairs of
  an optional block index (`cb`) and an optional payload address
  (`ptr`), and one Lean function per constructor / member function of
  the source, returning `none` where the source dereferences a null or
  dangling pointer (undefined behavior);

* a per-control-block trace model: the state of one control block
  together with counters of how many times `useDeleter()`, `Destroy()`
  and `Deallocate()` have been invoked on it, and a step relation with
  one operation per pointer primitive of the source, used to settle the
  whole-trace lifecycle claims.

`size_t` values are modelled as natural numbers with arithmetic taken
modulo `2 ^ 64` in the heap-level model.  In the trace model the counts
are maintained equal to the numbers of live strong and weak pointers
referencing the block, so every `--` in the source acts on a positive
count and `Nat` arithmetic is exact.
-/

namespace SmartPointers

/-- Modulus of `size_t` arithmetic (64-bit). -/
def size_t_mod : Nat := 2 ^ 64

/-- Increment of a `size_t` value (`++cnt` in the source). -/
def incr (n : Nat) : Nat := (n + 1) % size_t_mod

/-- Decrement of a `size_t` value (`--cnt` in the source); wraps at 0. -/
def decr (n : Nat) : Nat := (n + (size_t_mod - 1)) % size_t_mod

/-- Counter fields of `BaseControlBlock` (smart_pointers.h lines 13-22):
`shared_cnt` and `weak_cnt`, both `size_t`. -/
structure BaseControlBlock where
  shared_cnt : Nat
  weak_cnt : Nat
deriving DecidableEq, Repr

/-- The heap of control blocks: slot `i` holds `some b` while the block
is allocated and `none` once `Deallocate()` has released its storage.
Allocation appends a new slot. -/
abbrev Heap := List (Option BaseControlBlock)

/-- Read the control block at index `i`: `none` when the index is out of
range or the block's storage has been deallocated. -/
def Heap.getBlock (h : Heap) (i : Nat) : Option BaseControlBlock :=
  (h[i]?).bind id

/-- Overwrite the slot at index `i`. -/
def Heap.setBlock (h : Heap) (i : Nat) (b : Option BaseControlBlock) : Heap :=
  h.set i b

/-- Shape of `SharedPtr<T>` (lines 93-94): a nullable control-block
pointer and a nullable payload pointer.  Block identity is an index into
the heap; payload identity is an abstract address, preserved by the
`static_cast<T*>` pointer adjustment of the Derived-to-Base conversions
(one underlying object, many typed views). -/
structure SharedPtr where
  cb : Option Nat
  ptr : Option Nat
deriving DecidableEq, Repr

/-- Shape of `WeakPtr<T>` (lines 271-272): same fields as `SharedPtr`. -/
structure WeakPtr where
  cb : Option Nat
  ptr : Option Nat
deriving DecidableEq, Repr

/-- `SharedPtr(const WeakPtr<T>& weak)` (lines 164-166): copies `cb` and
`ptr` and performs `++cb->shared_cnt` with no null or liveness guard, so
the result is `none` exactly when `weak.cb` is null (null dereference)
or the block's storage is gone (dangling dereference). -/
def SharedPtr.fromWeak (h : Heap) (w : WeakPtr) : Option (Heap × SharedPtr) :=
  match w.cb with
  | none => none
  | some i =>
    match h.getBlock i with
    | none => none
    | some b =>
      some (h.setBlock i (some { b with shared_cnt := incr b.shared_cnt }),
            { cb := some i, ptr := w.ptr })

/-- `WeakPtr::lock` (lines 387-389): `return SharedPtr<T>(*this);`. -/
def WeakPtr.lock (h : Heap) (w : WeakPtr) : Option (Heap × SharedPtr) :=
  SharedPtr.fromWeak h w

/-- `WeakPtr::expired` (lines 383-385):
`return cb == nullptr || cb->shared_cnt == 0;`.  The null test is
short-circuiting, so the empty weak pointer never dereferences `cb`;
only a dangling (deallocated) block yields `none`. -/
def WeakPtr.expired (h : Heap) (w : WeakPtr) : Option Bool :=
  match w.cb with
  | none => some true
  | some i => (h.getBlock i).map (fun b => b.shared_cnt == 0)

/-- `WeakPtr::use_count` (lines 400-402): `return cb->shared_cnt;`
with no null guard. -/
def WeakPtr.use_count (h : Heap) (w : WeakPtr) : Option Nat :=
  match w.cb with
  | none => none
  | some i => (h.getBlock i).map (fun b => b.shared_cnt)

/-- `SharedPtr::use_count` (lines 223-225): `return cb->shared_cnt;`
with no null guard. -/
def SharedPtr.use_count (h : Heap) (s : SharedPtr) : Option Nat :=
  match s.cb with
  | none => none
  | some i => (h.getBlock i).map (fun b => b.shared_cnt)

/-- `SharedPtr(const SharedPtr<Derived>& other)` (lines 127-134): copies
the control-block pointer (a `static_cast` to the base block type) and
the payload pointer (a `static_cast<T*>`, same underlying object), then
increments `shared_cnt` only when the block pointer is non-null.  No new
control block is allocated. -/
def SharedPtr.copyFromDerived (h : Heap) (other : SharedPtr) :
    Option (Heap × SharedPtr) :=
  match other.cb with
  | none => some (h, { cb := none, ptr := other.ptr })
  | some i =>
    match h.getBlock i with
    | none => none
    | some b =>
      some (h.setBlock i (some { b with shared_cnt := incr b.shared_cnt }),
            { cb := some i, ptr := other.ptr })

/-- `WeakPtr(const SharedPtr<T>& shared)` (lines 276-278): copies both
fields and performs `++cb->weak_cnt` with no null guard. -/
def WeakPtr.fromSharedCopy (h : Heap) (s : SharedPtr) :
    Option (Heap × WeakPtr) :=
  match s.cb with
  | none => none
  | some i =>
    match h.getBlock i with
    | none => none
    | some b =>
      some (h.setBlock i (some { b with weak_cnt := incr b.weak_cnt }),
            { cb := some i, ptr := s.ptr })

/-- `WeakPtr(SharedPtr<T>&& shared)` (lines 280-285): steals both
fields, nulls the source, then `--cb->shared_cnt; ++cb->weak_cnt;` with
no null guard and with no cleanup call even when `shared_cnt` reaches 0.
Returns the updated heap, the new weak pointer and the moved-from
strong pointer. -/
def WeakPtr.fromSharedMove (h : Heap) (s : SharedPtr) :
    Option (Heap × WeakPtr × SharedPtr) :=
  match s.cb with
  | none => none
  | some i =>
    match h.getBlock i with
    | none => none
    | some b =>
      some (h.setBlock i (some { shared_cnt := decr b.shared_cnt,
                                 weak_cnt := incr b.weak_cnt }),
            { cb := some i, ptr := s.ptr },
            { cb := none, ptr := none })

/-- `WeakPtr(const WeakPtr& other)` (lines 304-306): copies both fields
and performs `++cb->weak_cnt` with no null guard, so copying the empty
weak pointer dereferences null. -/
def WeakPtr.copy (h : Heap) (other : WeakPtr) : Option (Heap × WeakPtr) :=
  match other.cb with
  | none => none
  | some i =>
    match h.getBlock i with
    | none => none
    | some b =>
      some (h.setBlock i (some { b with weak_cnt := incr b.weak_cnt }),
            { cb := some i, ptr := other.ptr })

/-- `WeakPtr(WeakPtr<Derived>&& shared)` (lines 319-324): copies both
fields (with the `static_cast` adjustments) and performs
`++cb->weak_cnt`; the source is NOT nulled out and no count is
decremented, so the moved-from weak pointer is returned unchanged. -/
def WeakPtr.moveFromDerived (h : Heap) (other : WeakPtr) :
    Option (Heap × WeakPtr × WeakPtr) :=
  match other.cb with
  | none => none
  | some i =>
    match h.getBlock i with
    | none => none
    | some b =>
      some (h.setBlock i (some { b with weak_cnt := incr b.weak_cnt }),
            { cb := some i, ptr := other.ptr },
            other)

/-- `WeakPtr::~WeakPtr` (lines 326-336): a null `cb` is a no-op;
otherwise `--cb->weak_cnt` and, when both counts are now 0,
`cb->Deallocate()` (the slot becomes `none`).  Returns the heap after
destruction; `none` models destruction of a dangling weak pointer. -/
def WeakPtr.dtor (h : Heap) (w : WeakPtr) : Option Heap :=
  match w.cb with
  | none => some h
  | some i =>
    match h.getBlock i with
    | none => none
    | some b =>
      let b' : BaseControlBlock := { b with weak_cnt := decr b.weak_cnt }
      if b'.weak_cnt = 0 ∧ b'.shared_cnt = 0 then
        some (h.setBlock i none)
      else
        some (h.setBlock i (some b'))

/-- `WeakPtr::operator=(const WeakPtr& other)` (lines 343-347):
copy-and-swap with no self-assignment check — `WeakPtr tmp(other);
swap(tmp);` then `tmp` (holding the left-hand side's old fields) is
destroyed.  Under aliasing (`other` is `*this`) the same value-level
sequence applies, because the copy constructor does not mutate `other`
and the swap exchanges equal field values. -/
def WeakPtr.assignCopy (h : Heap) (lhs other : WeakPtr) :
    Option (Heap × WeakPtr) :=
  match WeakPtr.copy h other with
  | none => none
  | some (h1, tmp) =>
    match WeakPtr.dtor h1 lhs with
    | none => none
    | some h2 => some (h2, tmp)

/-- `WeakPtr::operator=(const SharedPtr<Derived>& shared)`
(lines 356-360): `WeakPtr tmp(shared); swap(tmp);` then `tmp` (holding
the old left-hand side) is destroyed. -/
def WeakPtr.assignFromShared (h : Heap) (lhs : WeakPtr) (s : SharedPtr) :
    Option (Heap × WeakPtr) :=
  match WeakPtr.fromSharedCopy h s with
  | none => none
  | some (h1, tmp) =>
    match WeakPtr.dtor h1 lhs with
    | none => none
    | some h2 => some (h2, tmp)

/-- `SharedPtr(T* ptr, Deleter, Alloc)` (lines 101-114) for a payload
type `T` deriving `EnableSharedFromThis<T>`: allocates a
`ControlBlockRegular` with counts `(1, 0)` and then executes
`ptr->wptr = *this;`, the weak-from-shared assignment above.  `oldW` is
the payload's `wptr` field before adoption (empty for a freshly
constructed object).  Returns the heap, the new strong pointer and the
payload's updated `wptr` field. -/
def SharedPtr.adoptEnableShared (h : Heap) (p : Nat) (oldW : WeakPtr) :
    Option (Heap × SharedPtr × WeakPtr) :=
  let h1 : Heap := h ++ [some { shared_cnt := 1, weak_cnt := 0 }]
  let s : SharedPtr := { cb := some h.length, ptr := some p }
  match WeakPtr.assignFromShared h1 oldW s with
  | none => none
  | some (h2, w) => some (h2, s, w)

/-!
Trace model: lifecycle of one control block under an arbitrary sequence
of pointer operations.  The counts are kept equal to the numbers of
live strong and weak pointers referencing the block (that is spec §8's
first testable property, and it holds by construction here: every
operation's precondition demands a live pointer of the kind it reads,
and each count moves in lockstep with the live-pointer number).  Event
counters record every invocation of the control block's cleanup
protocol: `useDeleter()` (runs the payload deleter in the separate
variant), `Destroy()` (in-place destructor in the combined variant) and
`Deallocate()` (release of the block's backing storage).
-/

/-- State of one control block plus its cleanup-event history.
`allocated` is true while the block's storage has not been released. -/
structure BlockState where
  shared_cnt : Nat
  weak_cnt : Nat
  allocated : Bool
  deleterCalls : Nat
  destroyCalls : Nat
  deallocCalls : Nat
deriving DecidableEq, Repr

/-- State of a control block as created by either factory
(`ControlBlockRegular` / `ControlBlockMakeShared` constructors,
lines 40-44 and 69-73): counts `(1, 0)`, no cleanup event yet. -/
def initBlock : BlockState :=
  { shared_cnt := 1, weak_cnt := 0, allocated := true,
    deleterCalls := 0, destroyCalls := 0, deallocCalls := 0 }

/-- Pointer operations acting on one control block.  Assignments of the
source reduce to these: every `operator=` is copy-and-swap followed by
destruction of the temporary, and the converting constructors have the
same effect on the block as their same-type versions (the converting
weak move, lines 319-324, increments `weak_cnt` and leaves its source
alive, so its block effect is that of a weak copy). -/
inductive Op where
  | copyStrong
  | moveStrong
  | destroyStrong
  | copyWeakFromStrong
  | moveWeakFromStrong
  | copyWeak
  | moveWeak
  | destroyWeak
  | lockWeak
deriving DecidableEq, Repr

/-- One operation on the block.  Preconditions (`none` otherwise): the
storage is still allocated and a live pointer of the kind the operation
reads exists.  Effects follow the source:

* `copyStrong`: `SharedPtr` copy / converting copy (lines 116-134),
  `++shared_cnt`;
* `moveStrong` / `moveWeak`: moves transfer the fields and null the
  source (lines 122-125, 136-142, 307-310), no count is touched;
* `destroyStrong`: `~SharedPtr` (lines 144-158) — `--shared_cnt`; at 0
  it runs `useDeleter()` then `Destroy()`, then `Deallocate()` if
  `weak_cnt` is also 0;
* `copyWeakFromStrong`: `WeakPtr(const SharedPtr&)` (lines 276-278,
  287-292), `++weak_cnt`;
* `moveWeakFromStrong`: `WeakPtr(SharedPtr&&)` (lines 280-285,
  294-302), `--shared_cnt; ++weak_cnt;` with NO cleanup call even when
  `shared_cnt` reaches 0;
* `copyWeak`: `WeakPtr` copy / converting copy (lines 304-306,
  312-317) and the converting weak move (lines 319-324), `++weak_cnt`;
* `destroyWeak`: `~WeakPtr` (lines 326-336) — `--weak_cnt`; when both
  counts are 0 it runs `Deallocate()`;
* `lockWeak`: `WeakPtr::lock` (lines 387-389, 164-166),
  `++shared_cnt` unconditionally, creating a new live strong pointer.
-/
def step (b : BlockState) : Op → Option BlockState
  | .copyStrong =>
    if b.allocated = true then if 1 ≤ b.shared_cnt then
      some { b with shared_cnt := b.shared_cnt + 1 }
    else none
    else none
  | .moveStrong =>
    if b.allocated = true then if 1 ≤ b.shared_cnt then some b else none
    else none
  | .destroyStrong =>
    if b.allocated = true then if 1 ≤ b.shared_cnt then
      if b.shared_cnt - 1 = 0 then
        if b.weak_cnt = 0 then
          some { b with shared_cnt := 0,
                        deleterCalls := b.deleterCalls + 1,
                        destroyCalls := b.destroyCalls + 1,
                        deallocCalls := b.deallocCalls + 1,
                        allocated := false }
        else
          some { b with shared_cnt := 0,
                        deleterCalls := b.deleterCalls + 1,
                        destroyCalls := b.destroyCalls + 1 }
      else some { b with shared_cnt := b.shared_cnt - 1 }
    else none
    else none
  | .copyWeakFromStrong =>
    if b.allocated = true then if 1 ≤ b.shared_cnt then
      some { b with weak_cnt := b.weak_cnt + 1 }
    else none
    else none
  | .moveWeakFromStrong =>
    if b.allocated = true then if 1 ≤ b.shared_cnt then
      some { b with shared_cnt := b.shared_cnt - 1,
                    weak_cnt := b.weak_cnt + 1 }
    else none
    else none
  | .copyWeak =>
    if b.allocated = true then if 1 ≤ b.weak_cnt then
      some { b with weak_cnt := b.weak_cnt + 1 }
    else none
    else none
  | .moveWeak =>
    if b.allocated = true then if 1 ≤ b.weak_cnt then some b else none
    else none
  | .destroyWeak =>
    if b.allocated = true then if 1 ≤ b.weak_cnt then
      if b.weak_cnt - 1 = 0 ∧ b.shared_cnt = 0 then
        some { b with weak_cnt := 0,
                      deallocCalls := b.deallocCalls + 1,
                      allocated := false }
      else some { b with weak_cnt := b.weak_cnt - 1 }
    else none
    else none
  | .lockWeak =>
    if b.allocated = true then if 1 ≤ b.weak_cnt then
      some { b with shared_cnt := b.shared_cnt + 1 }
    else none
    else none

/-- Run a sequence of operations from a block state. -/
def run (b : BlockState) : List Op → Option BlockState
  | [] => some b
  | op :: rest =>
    match step b op with
    | none => none
    | some b2 => run b2 rest

/-! Helper lemmas: `size_t` arithmetic and heap reads/writes. -/

/-- Numeric value of the `size_t` modulus. -/
theorem size_t_mod_eq : size_t_mod = 18446744073709551616 := by
  norm_num [size_t_mod]

/-- Incrementing a `size_t` value below the modulus is exact. -/
theorem incr_eq (n : Nat) (hn : n + 1 < size_t_mod) : incr n = n + 1 := by
  rw [size_t_mod_eq] at hn
  simp only [incr, size_t_mod_eq]
  omega

/-- Decrementing a positive `size_t` value is exact. -/
theorem decr_eq (n : Nat) (h1 : 1 ≤ n) (h2 : n < size_t_mod) :
    decr n = n - 1 := by
  rw [size_t_mod_eq] at h2
  simp only [decr, size_t_mod_eq]
  omega

/-- Decrement undoes increment for every representable `size_t` value
(also when the increment wraps to 0). -/
theorem decr_incr (n : Nat) (h2 : n < size_t_mod) : decr (incr n) = n := by
  rw [size_t_mod_eq] at h2
  simp only [incr, decr, size_t_mod_eq]
  omega

/-- A successful block read forces the raw slot contents. -/
theorem Heap.get_of_getBlock {h : Heap} {i : Nat} {b : BaseControlBlock}
    (hb : h.getBlock i = some b) : h[i]? = some (some b) := by
  unfold Heap.getBlock at hb
  cases hx : h[i]? with
  | none => rw [hx] at hb; simp at hb
  | some o => rw [hx] at hb; cases o <;> simp_all

/-- A readable block index is in range. -/
theorem Heap.getBlock_lt {h : Heap} {i : Nat} {b : BaseControlBlock}
    (hb : h.getBlock i = some b) : i < h.length :=
  (List.getElem?_eq_some.mp (Heap.get_of_getBlock hb)).1

/-- Reading a slot just written. -/
theorem Heap.getBlock_setBlock_self (h : Heap) (i : Nat)
    (x : Option BaseControlBlock) (hi : i < h.length) :
    (h.setBlock i x).getBlock i = x := by
  unfold Heap.getBlock Heap.setBlock
  rw [List.getElem?_set_eq_of_lt x hi]
  cases x <;> rfl

/-- Two writes to the same slot collapse to the second. -/
theorem Heap.setBlock_setBlock (h : Heap) (i : Nat)
    (x y : Option BaseControlBlock) :
    (h.setBlock i x).setBlock i y = h.setBlock i y :=
  List.set_set x y h i

/-- Writing back the value a list slot already holds is the identity. -/
theorem list_set_self {α : Type} {l : List α} {i : Nat} {a : α}
    (hx : l[i]? = some a) : l.set i a = l := by
  induction l generalizing i with
  | nil => simp at hx
  | cons y ys ih =>
    cases i with
    | zero => simp_all
    | succ n => simp_all [List.set]

/-- Writing back the block just read leaves the heap unchanged. -/
theorem Heap.setBlock_self {h : Heap} {i : Nat} {b : BaseControlBlock}
    (hb : h.getBlock i = some b) : h.setBlock i (some b) = h :=
  list_set_self (Heap.get_of_getBlock hb)

/-- Writing a slot preserves the heap's length. -/
theorem Heap.length_setBlock (h : Heap) (i : Nat)
    (x : Option BaseControlBlock) : (h.setBlock i x).length = h.length :=
  List.length_set h i x

/-- Reading the freshly appended slot. -/
theorem Heap.getBlock_append (h : Heap) (x : Option BaseControlBlock) :
    (h ++ [x]).getBlock h.length = x := by
  unfold Heap.getBlock
  rw [List.getElem?_concat_length]
  cases x <;> rfl

/-! Helper lemmas: the trace-model lifecycle invariant. -/

/-- Lifecycle invariant of a control block: `Deallocate()` has run
exactly once when both counts are 0, and not at all otherwise. -/
def BlockInv (b : BlockState) : Prop :=
  (b.shared_cnt = 0 ∧ b.weak_cnt = 0 → b.deallocCalls = 1) ∧
  (¬(b.shared_cnt = 0 ∧ b.weak_cnt = 0) → b.deallocCalls = 0)

/-- Every operation preserves the lifecycle invariant. -/
theorem step_inv {b b2 : BlockState} {op : Op} (hI : BlockInv b)
    (hs : step b op = some b2) : BlockInv b2 := by
  unfold BlockInv at hI ⊢
  cases op <;> simp only [step] at hs <;>
    (repeat' split at hs) <;>
    cases hs <;>
    (try simp only at hI ⊢) <;>
    (try simp only [true_and, and_true] at hI ⊢) <;>
    omega

/-- Running any operation sequence preserves the invariant. -/
theorem run_inv (ops : List Op) {b b2 : BlockState} (hI : BlockInv b)
    (hr : run b ops = some b2) : BlockInv b2 := by
  induction ops generalizing b with
  | nil => simp only [run, Option.some.injEq] at hr; subst hr; exact hI
  | cons op rest ih =>
    simp only [run] at hr
    match hx : step b op with
    | none => rw [hx] at hr; simp at hr
    | some b1 =>
      rw [hx] at hr
      exact ih (step_inv hI hx) hr

/-- The factory state satisfies the invariant. -/
theorem initBlock_inv : BlockInv initBlock := by
  unfold BlockInv initBlock
  simp

/-- Equation for `WeakPtr` copy construction from a live weak pointer. -/
theorem WeakPtr.copy_eq {h : Heap} {w : WeakPtr} {i : Nat}
    {b : BaseControlBlock} (hcb : w.cb = some i)
    (hb : h.getBlock i = some b) :
    WeakPtr.copy h w =
      some (h.setBlock i (some ⟨b.shared_cnt, incr b.weak_cnt⟩),
            ⟨some i, w.ptr⟩) := by
  simp only [WeakPtr.copy, hcb, hb]

/-- Equation for `~WeakPtr` when the block keeps a non-zero count. -/
theorem WeakPtr.dtor_eq_live {h : Heap} {w : WeakPtr} {i : Nat}
    {b : BaseControlBlock} (hcb : w.cb = some i)
    (hb : h.getBlock i = some b)
    (hne : ¬(decr b.weak_cnt = 0 ∧ b.shared_cnt = 0)) :
    WeakPtr.dtor h w =
      some (h.setBlock i (some ⟨b.shared_cnt, decr b.weak_cnt⟩)) := by
  simp only [WeakPtr.dtor, hcb, hb]
  rw [if_neg hne]

/-- Equation composing `operator=` from its copy-and-swap pieces. -/
theorem WeakPtr.assignCopy_eq {h h1 hfin : Heap} {lhs other tmp : WeakPtr}
    (hc : WeakPtr.copy h other = some (h1, tmp))
    (hd : WeakPtr.dtor h1 lhs = some hfin) :
    WeakPtr.assignCopy h lhs other = some (hfin, tmp) := by
  unfold WeakPtr.assignCopy
  rw [hc]
  show (match WeakPtr.dtor h1 lhs with
        | none => none
        | some hh => some (hh, tmp)) = some (hfin, tmp)
  rw [hd]

/-!
Claim theorems.
-/

/-- C1, counterexample: on a weak pointer whose block is non-null and
has `shared_cnt = 0` (so `expired()` is true), `lock()` does NOT return
an empty strong pointer: at the concrete state with one block
`(shared_cnt, weak_cnt) = (0, 1)`, the result's control-block reference
is non-null (it is the same block) and the block's `shared_cnt` was
changed from 0 to 1, refuting both parts of the claim. -/
theorem C1_lock_expired_counterexample :
    WeakPtr.expired [some ⟨0, 1⟩] ⟨some 0, some 0⟩ = some true ∧
    WeakPtr.lock [some ⟨0, 1⟩] ⟨some 0, some 0⟩ =
      some ([some ⟨1, 1⟩], ⟨some 0, some 0⟩) ∧
    (⟨some 0, some 0⟩ : SharedPtr).cb ≠ none ∧
    Heap.getBlock [some ⟨1, 1⟩] 0 ≠ some ⟨0, 1⟩ := by decide

/-- C1, amended: for every weak pointer with a non-null, live control
block whose `shared_cnt` is 0, `lock()` (lines 387-389 via the
unconditional increment of lines 164-166) returns a strong pointer
referencing the same block with the same payload pointer, and the
block's `shared_cnt` is resurrected from 0 to 1 — the hazard the spec
documents in its §4.3 contract note and §9 open question. -/
theorem C1_lock_expired_resurrects (h : Heap) (w : WeakPtr) (i : Nat)
    (b : BaseControlBlock) (hcb : w.cb = some i)
    (hb : h.getBlock i = some b) (hs : b.shared_cnt = 0) :
    WeakPtr.lock h w =
      some (h.setBlock i (some ⟨1, b.weak_cnt⟩), ⟨some i, w.ptr⟩) := by
  simp only [WeakPtr.lock, SharedPtr.fromWeak, hcb, hb, hs,
             incr_eq 0 (by decide)]

/-- C1, witness for the amended theorem at the concrete expired state. -/
theorem C1_lock_expired_resurrects_witness :
    ((⟨some 0, some 0⟩ : WeakPtr).cb = some 0 ∧
     Heap.getBlock [some ⟨0, 1⟩] 0 = some ⟨0, 1⟩ ∧
     (⟨0, 1⟩ : BaseControlBlock).shared_cnt = 0) ∧
    WeakPtr.lock [some ⟨0, 1⟩] ⟨some 0, some 0⟩ =
      some (Heap.setBlock [some ⟨0, 1⟩] 0 (some ⟨1, 1⟩), ⟨some 0, some 0⟩) :=
  ⟨⟨rfl, by decide, rfl⟩,
   C1_lock_expired_resurrects [some ⟨0, 1⟩] ⟨some 0, some 0⟩ 0 ⟨0, 1⟩ rfl
     (by decide) rfl⟩

/-- C2: evaluating the code on the trace that removes the last strong
pointer by move-constructing a weak pointer from it
(`WeakPtr(SharedPtr&&)`, lines 280-285) and then destroys that weak
pointer: the block is deallocated (`deallocCalls = 1`) with
`deleterCalls = 0` and `destroyCalls = 0` — the payload's deleter /
in-place destructor is never invoked, although the operation that
removed the last strong reference has happened, contradicting the
claimed exactly-once invariant. -/
theorem C2_move_to_weak_never_runs_deleter :
    run initBlock [Op.moveWeakFromStrong, Op.destroyWeak] =
      some ⟨0, 0, false, 0, 0, 1⟩ := by decide

/-- C3: along every operation sequence on a control block created with
counts `(1, 0)`, `Deallocate()` has been invoked exactly once if both
counts are 0 and never otherwise — so it runs exactly at the operation
after which both counts are 0 — and the two destruction orderings
(last strong destroyed last, and last weak destroyed last) both reach
the deallocated state with `deallocCalls = 1`. -/
theorem C3_deallocate_exactly_once :
    (∀ (ops : List Op) (b : BlockState), run initBlock ops = some b →
      b.deallocCalls = if b.shared_cnt = 0 ∧ b.weak_cnt = 0 then 1 else 0) ∧
    run initBlock [Op.copyWeakFromStrong, Op.destroyStrong, Op.destroyWeak] =
      some ⟨0, 0, false, 1, 1, 1⟩ ∧
    run initBlock [Op.copyWeakFromStrong, Op.destroyWeak, Op.destroyStrong] =
      some ⟨0, 0, false, 1, 1, 1⟩ := by
  refine ⟨?_, by decide, by decide⟩
  intro ops b hr
  have hI := run_inv ops initBlock_inv hr
  unfold BlockInv at hI
  split_ifs with hc
  · exact hI.1 hc
  · exact hI.2 hc

/-- C3, witness at the last-strong-then-last-weak ordering. -/
theorem C3_deallocate_exactly_once_witness :
    run initBlock [Op.copyWeakFromStrong, Op.destroyStrong, Op.destroyWeak] =
      some ⟨0, 0, false, 1, 1, 1⟩ ∧
    (⟨0, 0, false, 1, 1, 1⟩ : BlockState).deallocCalls =
      (if (⟨0, 0, false, 1, 1, 1⟩ : BlockState).shared_cnt = 0 ∧
          (⟨0, 0, false, 1, 1, 1⟩ : BlockState).weak_cnt = 0 then 1 else 0) :=
  ⟨by decide,
   C3_deallocate_exactly_once.1
     [Op.copyWeakFromStrong, Op.destroyStrong, Op.destroyWeak]
     ⟨0, 0, false, 1, 1, 1⟩ (by decide)⟩

/-- C4: evaluating the converting weak-pointer move constructor
(lines 319-324) on a non-empty derived weak pointer whose block has
`(shared_cnt, weak_cnt) = (1, 1)`: the moved-from pointer is returned
unchanged (still non-empty, third component) and `weak_cnt` is
incremented to 2 — the constructor behaves as a converting copy,
contradicting the claim that the source becomes empty and `weak_cnt`
is unchanged. -/
theorem C4_converting_move_behaves_as_copy :
    WeakPtr.moveFromDerived [some ⟨1, 1⟩] ⟨some 0, some 0⟩ =
      some ([some ⟨1, 2⟩], ⟨some 0, some 0⟩, ⟨some 0, some 0⟩) ∧
    (⟨some 0, some 0⟩ : WeakPtr) ≠ ⟨none, none⟩ ∧
    Heap.getBlock [some ⟨1, 2⟩] 0 ≠ some ⟨1, 1⟩ := by decide

/-- C5: converting a non-empty strong pointer to a derived type into a
strong pointer to a base type (lines 127-134) yields a pointer with the
same control-block reference and the same payload address (one
underlying object), allocates no new control block (heap length is
unchanged), and `use_count()` read through either pointer afterwards is
identical. -/
theorem C5_converting_copy_shares_block (h : Heap) (sp : SharedPtr) (i : Nat)
    (b : BaseControlBlock) (hcb : sp.cb = some i)
    (hb : h.getBlock i = some b) :
    SharedPtr.copyFromDerived h sp =
      some (h.setBlock i (some ⟨incr b.shared_cnt, b.weak_cnt⟩),
            ⟨some i, sp.ptr⟩) ∧
    (⟨some i, sp.ptr⟩ : SharedPtr).cb = sp.cb ∧
    (⟨some i, sp.ptr⟩ : SharedPtr).ptr = sp.ptr ∧
    (Heap.setBlock h i (some ⟨incr b.shared_cnt, b.weak_cnt⟩)).length =
      h.length ∧
    SharedPtr.use_count
        (Heap.setBlock h i (some ⟨incr b.shared_cnt, b.weak_cnt⟩))
        ⟨some i, sp.ptr⟩ =
      SharedPtr.use_count
        (Heap.setBlock h i (some ⟨incr b.shared_cnt, b.weak_cnt⟩)) sp := by
  refine ⟨?_, by simp [hcb], rfl, Heap.length_setBlock h i _, ?_⟩
  · simp only [SharedPtr.copyFromDerived, hcb, hb]
  · simp only [SharedPtr.use_count, hcb]

/-- C5, witness at a one-block heap. -/
theorem C5_converting_copy_shares_block_witness :
    ((⟨some 0, some 5⟩ : SharedPtr).cb = some 0 ∧
     Heap.getBlock [some ⟨1, 0⟩] 0 = some ⟨1, 0⟩) ∧
    SharedPtr.copyFromDerived [some ⟨1, 0⟩] ⟨some 0, some 5⟩ =
      some (Heap.setBlock [some ⟨1, 0⟩] 0 (some ⟨incr 1, 0⟩),
            ⟨some 0, some 5⟩) :=
  ⟨⟨rfl, by decide⟩,
   (C5_converting_copy_shares_block [some ⟨1, 0⟩] ⟨some 0, some 5⟩ 0 ⟨1, 0⟩
     rfl (by decide)).1⟩

/-- C6: for a weak pointer with `expired() = false` and
`shared_cnt = n` (with `n + 1` representable), `lock()` returns a
strong pointer carrying the same payload pointer the weak pointer
observes, and `use_count()` on the result is `n + 1`. -/
theorem C6_lock_not_expired_increments (h : Heap) (w : WeakPtr) (i : Nat)
    (b : BaseControlBlock) (n : Nat) (hcb : w.cb = some i)
    (hb : h.getBlock i = some b) (hexp : WeakPtr.expired h w = some false)
    (hn : b.shared_cnt = n) (hbound : n + 1 < size_t_mod) :
    WeakPtr.lock h w =
      some (h.setBlock i (some ⟨n + 1, b.weak_cnt⟩), ⟨some i, w.ptr⟩) ∧
    SharedPtr.use_count (Heap.setBlock h i (some ⟨n + 1, b.weak_cnt⟩))
        ⟨some i, w.ptr⟩ = some (n + 1) ∧
    (⟨some i, w.ptr⟩ : SharedPtr).ptr = w.ptr := by
  refine ⟨?_, ?_, rfl⟩
  · simp only [WeakPtr.lock, SharedPtr.fromWeak, hcb, hb, hn,
               incr_eq n hbound]
  · simp only [SharedPtr.use_count]
    rw [Heap.getBlock_setBlock_self h i _ (Heap.getBlock_lt hb)]
    rfl

/-- C6, witness at a block with `shared_cnt = 1`, `weak_cnt = 1`. -/
theorem C6_lock_not_expired_increments_witness :
    ((⟨some 0, some 3⟩ : WeakPtr).cb = some 0 ∧
     Heap.getBlock [some ⟨1, 1⟩] 0 = some ⟨1, 1⟩ ∧
     WeakPtr.expired [some ⟨1, 1⟩] ⟨some 0, some 3⟩ = some false ∧
     (⟨1, 1⟩ : BaseControlBlock).shared_cnt = 1 ∧ 1 + 1 < size_t_mod) ∧
    WeakPtr.lock [some ⟨1, 1⟩] ⟨some 0, some 3⟩ =
      some (Heap.setBlock [some ⟨1, 1⟩] 0 (some ⟨2, 1⟩), ⟨some 0, some 3⟩) :=
  ⟨⟨rfl, by decide, by decide, rfl, by decide⟩,
   (C6_lock_not_expired_increments [some ⟨1, 1⟩] ⟨some 0, some 3⟩ 0 ⟨1, 1⟩ 1
     rfl (by decide) (by decide) rfl (by decide)).1⟩

/-- C7: move-constructing a weak pointer from a non-empty strong
pointer (lines 280-285) decrements the block's `shared_cnt` by 1,
increments its `weak_cnt` by 1, hands the weak pointer the same block
and payload, and leaves the moved-from strong pointer empty. -/
theorem C7_weak_from_strong_move_transfers (h : Heap) (sp : SharedPtr)
    (i : Nat) (b : BaseControlBlock) (hcb : sp.cb = some i)
    (hb : h.getBlock i = some b) (h1 : 1 ≤ b.shared_cnt)
    (h2 : b.shared_cnt < size_t_mod) (h3 : b.weak_cnt + 1 < size_t_mod) :
    WeakPtr.fromSharedMove h sp =
      some (h.setBlock i (some ⟨b.shared_cnt - 1, b.weak_cnt + 1⟩),
            ⟨some i, sp.ptr⟩, ⟨none, none⟩) := by
  simp only [WeakPtr.fromSharedMove, hcb, hb, decr_eq b.shared_cnt h1 h2,
             incr_eq b.weak_cnt h3]

/-- C7, witness at a block with `shared_cnt = 1`, `weak_cnt = 0`. -/
theorem C7_weak_from_strong_move_transfers_witness :
    ((⟨some 0, some 5⟩ : SharedPtr).cb = some 0 ∧
     Heap.getBlock [some ⟨1, 0⟩] 0 = some ⟨1, 0⟩ ∧
     1 ≤ (⟨1, 0⟩ : BaseControlBlock).shared_cnt ∧
     (⟨1, 0⟩ : BaseControlBlock).shared_cnt < size_t_mod ∧
     (⟨1, 0⟩ : BaseControlBlock).weak_cnt + 1 < size_t_mod) ∧
    WeakPtr.fromSharedMove [some ⟨1, 0⟩] ⟨some 0, some 5⟩ =
      some (Heap.setBlock [some ⟨1, 0⟩] 0 (some ⟨0, 1⟩),
            ⟨some 0, some 5⟩, ⟨none, none⟩) :=
  ⟨⟨rfl, by decide, by decide, by decide, by decide⟩,
   C7_weak_from_strong_move_transfers [some ⟨1, 0⟩] ⟨some 0, some 5⟩ 0 ⟨1, 0⟩
     rfl (by decide) (by decide) (by decide) (by decide)⟩

/-- C8: adopting a raw pointer to a payload deriving
`EnableSharedFromThis` (lines 101-114) allocates the control block with
counts `(1, 0)` and then installs the internal weak observer through
`ptr->wptr = *this` (the weak-from-shared assignment), so immediately
after adoption the block holds `shared_cnt = 1` AND `weak_cnt = 1`:
the installed observer counts as a live weak pointer, keeping the
block's storage alive until the payload holding it is destroyed. -/
theorem C8_adopt_installs_self_observer (h : Heap) (p : Nat) :
    SharedPtr.adoptEnableShared h p ⟨none, none⟩ =
      some (Heap.setBlock (h ++ [some ⟨1, 0⟩]) h.length (some ⟨1, 1⟩),
            ⟨some h.length, some p⟩, ⟨some h.length, some p⟩) ∧
    Heap.getBlock
        (Heap.setBlock (h ++ [some ⟨1, 0⟩]) h.length (some ⟨1, 1⟩))
        h.length = some ⟨1, 1⟩ := by
  constructor
  · unfold SharedPtr.adoptEnableShared WeakPtr.assignFromShared
    simp only [WeakPtr.fromSharedCopy, Heap.getBlock_append,
               WeakPtr.dtor, incr_eq 0 (by decide)]
  · exact Heap.getBlock_setBlock_self (h ++ [some ⟨1, 0⟩]) h.length _
      (by simp)

/-- C8, witness on the empty heap. -/
theorem C8_adopt_installs_self_observer_witness :
    SharedPtr.adoptEnableShared [] 7 ⟨none, none⟩ =
      some (Heap.setBlock ([] ++ [some ⟨1, 0⟩]) 0 (some ⟨1, 1⟩),
            ⟨some 0, some 7⟩, ⟨some 0, some 7⟩) :=
  (C8_adopt_installs_self_observer [] 7).1

/-- C9: `expired()` (lines 383-385) short-circuits on the null
control-block reference and returns true on the empty weak pointer
without any dereference, while `lock()` and `use_count()` (lines
387-389 and 400-402) dereference the control-block reference with no
null guard — they have no defined result on the empty weak pointer —
and on every weak pointer referencing a live block all three
operations produce a result (the null-dereference branch is
unreachable under the non-empty precondition). -/
theorem C9_expired_guards_null_lock_does_not :
    (∀ h : Heap, WeakPtr.expired h ⟨none, none⟩ = some true) ∧
    (∀ h : Heap, WeakPtr.lock h ⟨none, none⟩ = none ∧
      WeakPtr.use_count h ⟨none, none⟩ = none) ∧
    (∀ (h : Heap) (w : WeakPtr) (i : Nat) (b : BaseControlBlock),
      w.cb = some i → h.getBlock i = some b →
      WeakPtr.lock h w ≠ none ∧ WeakPtr.use_count h w ≠ none ∧
      WeakPtr.expired h w ≠ none) := by
  refine ⟨fun h => rfl, fun h => ⟨rfl, rfl⟩, ?_⟩
  intro h w i b hcb hb
  refine ⟨?_, ?_, ?_⟩ <;>
    simp [WeakPtr.lock, SharedPtr.fromWeak, WeakPtr.use_count,
          WeakPtr.expired, hcb, hb]

/-- C9, witness on a live one-block heap. -/
theorem C9_expired_guards_null_lock_does_not_witness :
    ((⟨some 0, some 0⟩ : WeakPtr).cb = some 0 ∧
     Heap.getBlock [some ⟨2, 1⟩] 0 = some ⟨2, 1⟩) ∧
    (WeakPtr.lock [some ⟨2, 1⟩] ⟨some 0, some 0⟩ ≠ none ∧
     WeakPtr.use_count [some ⟨2, 1⟩] ⟨some 0, some 0⟩ ≠ none ∧
     WeakPtr.expired [some ⟨2, 1⟩] ⟨some 0, some 0⟩ ≠ none) :=
  ⟨⟨rfl, by decide⟩,
   C9_expired_guards_null_lock_does_not.2.2 [some ⟨2, 1⟩] ⟨some 0, some 0⟩ 0
     ⟨2, 1⟩ rfl (by decide)⟩

/-- C10, counterexample: self-assignment of the EMPTY weak pointer has
no defined result — the copy constructor invoked by the copy-and-swap
assignment (lines 343-347, 304-306) performs `++cb->weak_cnt` with no
null check, dereferencing the null control-block reference — so the
claim's "empty or not" universal statement fails on the empty weak
pointer: the operation does not leave the pointer unchanged, it is
undefined behavior. -/
theorem C10_self_assign_empty_counterexample :
    WeakPtr.assignCopy [] ⟨none, none⟩ ⟨none, none⟩ = none ∧
    WeakPtr.assignCopy [] ⟨none, none⟩ ⟨none, none⟩ ≠
      some ([], ⟨none, none⟩) := by decide

/-- C10, amended: for every weak pointer whose control-block reference
is non-null and refers to a live block with `weak_cnt` at least 1 (as
holds for any counted live weak pointer) and representable, the
unchecked copy-and-swap self-assignment `w = w` increments and then
decrements `weak_cnt`, triggers no deallocation, and returns heap and
pointer exactly unchanged. -/
theorem C10_self_assign_nonempty_identity (h : Heap) (w : WeakPtr) (i : Nat)
    (b : BaseControlBlock) (hcb : w.cb = some i)
    (hb : h.getBlock i = some b) (h1 : 1 ≤ b.weak_cnt)
    (h2 : b.weak_cnt < size_t_mod) :
    WeakPtr.assignCopy h w w = some (h, w) := by
  have hlt := Heap.getBlock_lt hb
  have hc := WeakPtr.copy_eq hcb hb
  have hg2 : (h.setBlock i
      (some ⟨b.shared_cnt, incr b.weak_cnt⟩)).getBlock i =
      some ⟨b.shared_cnt, incr b.weak_cnt⟩ :=
    Heap.getBlock_setBlock_self h i _ hlt
  have hne : ¬(decr (incr b.weak_cnt) = 0 ∧ b.shared_cnt = 0) := by
    rw [decr_incr b.weak_cnt h2]
    omega
  have hd := WeakPtr.dtor_eq_live hcb hg2 hne
  rw [WeakPtr.assignCopy_eq hc hd]
  rw [decr_incr b.weak_cnt h2]
  rw [Heap.setBlock_setBlock]
  rw [show (⟨b.shared_cnt, b.weak_cnt⟩ : BaseControlBlock) = b from rfl]
  rw [Heap.setBlock_self hb]
  rw [show (⟨some i, w.ptr⟩ : WeakPtr) = w from by rw [← hcb]]

/-- C10, witness for the amended theorem at a block with
`weak_cnt = 1`. -/
theorem C10_self_assign_nonempty_identity_witness :
    ((⟨some 0, some 5⟩ : WeakPtr).cb = some 0 ∧
     Heap.getBlock [some ⟨2, 1⟩] 0 = some ⟨2, 1⟩ ∧
     1 ≤ (⟨2, 1⟩ : BaseControlBlock).weak_cnt ∧
     (⟨2, 1⟩ : BaseControlBlock).weak_cnt < size_t_mod) ∧
    WeakPtr.assignCopy [some ⟨2, 1⟩] ⟨some 0, some 5⟩ ⟨some 0, some 5⟩ =
      some ([some ⟨2, 1⟩], ⟨some 0, some 5⟩) :=
  ⟨⟨rfl, by decide, by decide, by decide⟩,
   C10_self_assign_nonempty_identity [some ⟨2, 1⟩] ⟨some 0, some 5⟩ 0 ⟨2, 1⟩
     rfl (by decide) (by decide) (by decide)⟩

end SmartPointers
